import Mathlib

/-!
Shallow embedding of the ReAct agent loop and the dataframe-backed query
tools of the Agentic-Summariser repository, with proofs of the spec claims.

Sources embedded:
  * `archive_poc/archive_refactored/agents/base.py` (`BaseAgent.invoke`,
    `BaseAgent._execute_tool`, `BaseAgent.stream`, `run_agent_loop`)
  * `archive_poc/react.py` (`run_agent` and the query tools)
  * `archive_poc/streaming.py` (`demo_streaming_with_tools`)
  * `archive_poc/archive_refactored/tools/spending.py`
    (`get_total_spending`, `top_spending_categories`, `spending_in_date_range`)

Conventions: a Python function that can raise is embedded as a function
into `Except String _`, the raised exception carried as a string.  The
model backend (`llm_with_tools.invoke`) is embedded as an explicit
function from the conversation to a `ModelTurn`.  Transaction amounts are
embedded as integers; every claim under verification only involves
integral amounts, on which Python float arithmetic is exact.
-/

/-- One requested tool call, as produced in `response.tool_calls`:
a dict with keys `id`, `name`, `args`. -/
structure ToolInvocation where
  id : String
  name : String
  args : List (String × String)
deriving DecidableEq

/-- A complete model response: text content plus requested tool calls.
Mirrors the `AIMessage` fields the loops read (`content`, `tool_calls`). -/
structure ModelTurn where
  content : String
  tool_calls : List ToolInvocation
deriving DecidableEq

/-- Conversation messages: `HumanMessage`, `AIMessage` (with tool calls)
and `ToolMessage` (with `tool_call_id`). -/
inductive Message where
  | human (content : String)
  | ai (content : String) (tool_calls : List ToolInvocation)
  | tool (content : String) (tool_call_id : String)
deriving DecidableEq

/-- A registered tool: a name and an implementation.  `impl` returns
`Except.error e` when the Python implementation would raise `e`. -/
structure Tool where
  name : String
  impl : List (String × String) → Except String String

/-- The registry `tool_map = {t.name: t for t in tools}`: a Python dict
comprehension, so on duplicate names the last tool wins. -/
def tool_map (tools : List Tool) (name : String) : Option Tool :=
  (tools.filter (fun t => t.name == name)).getLast?

/-- Unknown-tool message of `BaseAgent._execute_tool` (base.py line 92):
`f"Error: Unknown tool '{tool_name}'"`. -/
def unknown_text_base (name : String) : String :=
  "Error: Unknown tool \x27" ++ name ++ "\x27"

/-- Unknown-tool message of `run_agent` (react.py line 193):
`f"Error: Unknown tool {tool_name}"` (no quotes around the name). -/
def unknown_text_react (name : String) : String :=
  "Error: Unknown tool " ++ name

/-- Unknown-tool message of `run_agent_loop` (base.py line 156) and of
`demo_streaming_with_tools` (streaming.py line 167): `f"Unknown tool: {tool_name}"`. -/
def unknown_text_plain (name : String) : String :=
  "Unknown tool: " ++ name

/-- Tool dispatch shared by all loop variants (parameterised by the
variant's unknown-tool message): `if tool_name in tool_map: result =
tool_map[tool_name].invoke(tool_args) else: result = <unknown text>`.
There is no `try`/`except` in the source, so an exception raised by the
implementation propagates (`Except.error`). -/
def execute_tool (tools : List Tool) (unknownText : String → String)
    (tc : ToolInvocation) : Except String String :=
  match tool_map tools tc.name with
  | some t => t.impl tc.args
  | none => Except.ok (unknownText tc.name)

/-- The `for tool_call in response.tool_calls:` body: execute each call and
append `ToolMessage(content=str(result), tool_call_id=tool_call['id'])`.
An exception from a tool propagates out of the whole loop. -/
def dispatch_tool_calls (exec : ToolInvocation → Except String String) :
    List ToolInvocation → List Message → Except String (List Message)
  | [], msgs => Except.ok msgs
  | tc :: rest, msgs =>
    match exec tc with
    | Except.ok r => dispatch_tool_calls exec rest (msgs ++ [Message.tool r tc.id])
    | Except.error e => Except.error e

/-- The whole tool-dispatching phase of one iteration: first
`messages.append(response)`, then execute every tool call in order. -/
def dispatch_phase (exec : ToolInvocation → Except String String)
    (response : ModelTurn) (msgs : List Message) : Except String (List Message) :=
  dispatch_tool_calls exec response.tool_calls
    (msgs ++ [Message.ai response.content response.tool_calls])

/-- Outcome of running a loop variant, instrumented with the number of
model calls made: the Python function either returns a string (`ok`) or
an uncaught exception propagates out of it (`raised`). -/
inductive RunResult where
  | ok (answer : String) (modelCalls : Nat)
  | raised (err : String) (modelCalls : Nat)
deriving DecidableEq

/-- Number of model calls made during the run. -/
def RunResult.calls : RunResult → Nat
  | RunResult.ok _ n => n
  | RunResult.raised _ n => n

/-- Account for one more model call. -/
def RunResult.bump : RunResult → RunResult
  | RunResult.ok a n => RunResult.ok a (n + 1)
  | RunResult.raised e n => RunResult.raised e (n + 1)

/-- The ReAct loop core shared by all four variants.  Fuel counts the
remaining iterations of `for iteration in range(1, max_iterations + 1)`
(equivalently react.py's `while iteration < max_iterations`).  Each
iteration calls the model once; an empty `tool_calls` returns
`response.content`; otherwise the tool-dispatch phase runs and the loop
repeats; when fuel runs out the variant's sentinel string is returned. -/
def react_loop (exec : ToolInvocation → Except String String)
    (sentinel : String) (client : List Message → ModelTurn) :
    List Message → Nat → RunResult
  | _, 0 => RunResult.ok sentinel 0
  | msgs, fuel + 1 =>
    let response := client msgs
    match response.tool_calls with
    | [] => RunResult.ok response.content 1
    | _ :: _ =>
      match dispatch_phase exec response msgs with
      | Except.error e => RunResult.raised e 1
      | Except.ok msgs2 =>
        (react_loop exec sentinel client msgs2 fuel).bump

/-- Sentinel returned by `BaseAgent.invoke` (base.py line 80) and
`run_agent` (react.py line 204). -/
def sentinel_full : String := "Max iterations reached without final answer"

/-- Sentinel returned by `run_agent_loop` (base.py line 164) and
`demo_streaming_with_tools` (streaming.py line 175). -/
def sentinel_short : String := "Max iterations reached"

/-- Default `max_iterations` of `BaseAgent` and `run_agent_loop`, and the
hard-coded cap of react.py's `run_agent`. -/
def default_max_iterations : Nat := 10

/-- `BaseAgent._execute_tool` (base.py lines 82-95). -/
def BaseAgent_execute_tool (tools : List Tool) (tc : ToolInvocation) :
    Except String String :=
  execute_tool tools unknown_text_base tc

/-- `BaseAgent.invoke` (base.py lines 49-80): seeds the conversation with
one `HumanMessage` built from the system prompt and the question, then
runs the ReAct loop for `max_iterations` iterations. -/
def BaseAgent_invoke (tools : List Tool) (client : List Message → ModelTurn)
    (system_prompt question : String) (max_iterations : Nat) : RunResult :=
  react_loop (BaseAgent_execute_tool tools) sentinel_full client
    [Message.human (system_prompt ++ "\n\nQuestion: " ++ question)] max_iterations

/-- The hard-coded prompt of react.py's `run_agent` (lines 150-157). -/
def react_prompt (user_question : String) : String :=
  "You are a financial analyst. Use the available tools to answer questions.\n\nCRITICAL RULES:\n1. Call the appropriate tool to get data\n2. After receiving tool results, REPEAT THE EXACT NUMBERS in your answer\n3. Your final answer MUST contain the specific dollar amounts and counts from the tool\n\nQuestion: " ++ user_question

/-- `run_agent` (react.py lines 135-204): while loop capped at 10
iterations, unknown-tool text without quotes, full sentinel. -/
def run_agent (tools : List Tool) (client : List Message → ModelTurn)
    (user_question : String) : RunResult :=
  react_loop (execute_tool tools unknown_text_react) sentinel_full client
    [Message.human (react_prompt user_question)] default_max_iterations

/-- `run_agent_loop` (base.py lines 129-164): standalone variant taking the
message list, `Unknown tool:` text, short sentinel. -/
def run_agent_loop (tools : List Tool) (client : List Message → ModelTurn)
    (msgs : List Message) (max_iterations : Nat) : RunResult :=
  react_loop (execute_tool tools unknown_text_plain) sentinel_short client
    msgs max_iterations

/-- One fragment of an incremental (streaming) model response, as consumed
by `BaseAgent.stream` and `demo_streaming_with_tools`: an `AIMessageChunk`
with partial `content` and fully-formed `tool_calls`. -/
structure Chunk where
  content : String
  tool_calls : List ToolInvocation
deriving DecidableEq

/-- One step of the chunk-collection loop (streaming.py lines 139-146,
base.py lines 110-115): `if chunk.content: collected_content +=
chunk.content` and `if chunk.tool_calls:
collected_tool_calls.extend(chunk.tool_calls)` (Python truthiness:
empty string / empty list skip the branch). -/
def collect_step (acc : ModelTurn) (c : Chunk) : ModelTurn :=
  { content := if c.content == "" then acc.content else acc.content ++ c.content,
    tool_calls := if c.tool_calls.isEmpty then acc.tool_calls
      else acc.tool_calls ++ c.tool_calls }

/-- Draining a finite stream of chunks into the collected `ModelTurn`,
starting from `collected_content = ""` and `collected_tool_calls = []`. -/
def collect_stream (chunks : List Chunk) : ModelTurn :=
  chunks.foldl collect_step { content := "", tool_calls := [] }

/-- Prompt of `demo_streaming_with_tools` (streaming.py lines 120-124). -/
def streaming_prompt (question : String) : String :=
  "You are a financial analyst.\nUse tools to get data. Include exact numbers in your answer.\nQuestion: " ++ question

/-- `demo_streaming_with_tools` (streaming.py lines 104-175): the backend
is a stream of chunks; each iteration drains it, then the collected turn
feeds the same dispatch logic; cap hard-coded to 5, short sentinel. -/
def demo_streaming_with_tools (tools : List Tool)
    (streamClient : List Message → List Chunk) (question : String) : RunResult :=
  react_loop (execute_tool tools unknown_text_plain) sentinel_short
    (fun msgs => collect_stream (streamClient msgs))
    [Message.human (streaming_prompt question)] 5

/-- Aggregation of a fragment stream as the spec words it: the texts
concatenated in order. -/
def concat_texts : List Chunk → String
  | [] => ""
  | c :: rest => c.content ++ concat_texts rest

/-- Aggregation of a fragment stream as the spec words it: the invocation
fragments appended in order. -/
def concat_calls : List Chunk → List ToolInvocation
  | [] => []
  | c :: rest => c.tool_calls ++ concat_calls rest

/-- A streaming backend and a blocking backend are equivalent stubs when,
on every conversation, the stream's fragments carry exactly the blocking
turn's text (in order) and exactly its invocation list (in order). -/
def equivalent_stub (streamClient : List Message → List Chunk)
    (blockingClient : List Message → ModelTurn) : Prop :=
  ∀ msgs, concat_texts (streamClient msgs) = (blockingClient msgs).content ∧
    concat_calls (streamClient msgs) = (blockingClient msgs).tool_calls

/-- One row of the transaction dataset (`sample_transactions.csv`), with
the columns the tools read.  Amounts are embedded as integers. -/
structure Txn where
  cust_id : String
  dr_cr_indctor : String
  tran_date : String
  tran_type : String
  tran_amt_in_ac : Int
  category_of_txn : String
deriving DecidableEq

/-- Insert commas every three digits from the right: `aux` walks the
reversed digit list.  Models the thousands grouping of `{:,.2f}`. -/
def group_digits_aux : List Char → List Char
  | [] => []
  | [a] => [a]
  | [a, b] => [a, b]
  | [a, b, c] => [a, b, c]
  | a :: b :: c :: rest => a :: b :: c :: ',' :: group_digits_aux rest

/-- Thousands-grouping of a digit string. -/
def comma_group (s : String) : String :=
  String.mk (group_digits_aux s.data.reverse).reverse

/-- Python's `f"{total:,.2f}"` on an integral value: thousands-grouped
digits followed by `.00` (exact for the integral amounts in the claims). -/
def format_money (n : Int) : String :=
  (if n < 0 then "-" else "") ++ comma_group (toString n.natAbs) ++ ".00"

/-- `get_total_spending` (spending.py lines 10-26, react.py lines 37-46):
filter to the customer's debit rows, sum the amounts, render the summary. -/
def get_total_spending (df : List Txn) (customer_id : String) : String :=
  let filtered := df.filter
    (fun r => r.cust_id == customer_id && r.dr_cr_indctor == "DR")
  let total := (filtered.map (fun r => r.tran_amt_in_ac)).sum
  "Customer " ++ customer_id ++ " total spending: $" ++ format_money total

/-- Sorted-unique insertion used to model the ascending-key order in which
`groupby('category_of_txn')` (default `sort=True`) emits its groups. -/
def insert_unique (s : String) : List String → List String
  | [] => [s]
  | y :: ys =>
    if s = y then y :: ys
    else if s.data < y.data then s :: y :: ys
    else y :: insert_unique s ys

/-- The distinct values of a key list, in ascending order. -/
def unique_sorted (l : List String) : List String :=
  l.foldr insert_unique []

/-- `filtered.groupby('category_of_txn')['tran_amt_in_ac'].sum()`: one
`(category, total)` pair per distinct category, keys ascending. -/
def groupby_category_sum (rows : List Txn) : List (String × Int) :=
  (unique_sorted (rows.map (fun r => r.category_of_txn))).map
    (fun c => (c, ((rows.filter (fun r => r.category_of_txn == c)).map
      (fun r => r.tran_amt_in_ac)).sum))

/-- The ranked-category core of `top_spending_categories` (spending.py
lines 54-78): filter to the customer's debit rows, total per category,
`sort_values(ascending=False)` (pandas' default sort is unstable, so the
order among equal totals is unspecified; insertion sort by descending
total realises one admissible order), then `head(top_n)`. -/
def top_spending_list (df : List Txn) (customer_id : String) (top_n : Nat) :
    List (String × Int) :=
  let filtered := df.filter
    (fun r => r.cust_id == customer_id && r.dr_cr_indctor == "DR")
  let category_totals := groupby_category_sum filtered
  (List.insertionSort (fun a b => b.2 ≤ a.2) category_totals).take top_n

/-- The `for i, (cat, amt) in enumerate(top_cats.items(), 1)` rendering
loop of `top_spending_categories`. -/
def render_categories : Nat → List (String × Int) → String
  | _, [] => ""
  | i, (cat, amt) :: rest =>
    "  " ++ toString i ++ ". " ++ cat ++ ": $" ++ format_money amt ++ "\n" ++
      render_categories (i + 1) rest

/-- `top_spending_categories` (spending.py lines 54-78, react.py lines
98-112): header line plus one numbered line per ranked category. -/
def top_spending_categories (df : List Txn) (customer_id : String)
    (top_n : Nat) : String :=
  "Top " ++ toString top_n ++ " spending categories for " ++ customer_id ++
    ":\n" ++ render_categories 1 (top_spending_list df customer_id top_n)

/-- The row filter of `spending_in_date_range` (spending.py lines 93-99,
adding_tools.py lines 139-144): customer's debit rows with
`tran_date >= start_date` and `tran_date <= end_date`, both comparisons
lexicographic on the code points of the `YYYY-MM-DD` strings (embedded as
the order on the character lists). -/
def spending_in_date_range_rows (df : List Txn)
    (customer_id start_date end_date : String) : List Txn :=
  df.filter (fun r => r.cust_id == customer_id && r.dr_cr_indctor == "DR" &&
    decide (start_date.data ≤ r.tran_date.data) &&
    decide (r.tran_date.data ≤ end_date.data))

/-- `spending_in_date_range` (spending.py lines 81-103): total and count
over the filtered rows, rendered as the summary string. -/
def spending_in_date_range (df : List Txn)
    (customer_id start_date end_date : String) : String :=
  let filtered := spending_in_date_range_rows df customer_id start_date end_date
  let total := (filtered.map (fun r => r.tran_amt_in_ac)).sum
  let count := filtered.length
  "Customer " ++ customer_id ++ " spent $" ++ format_money total ++
    " between " ++ start_date ++ " and " ++ end_date ++ " (" ++
    toString count ++ " transactions)"

/-! Helper lemmas shared by the claim theorems. -/

/-- Unfolding of one loop iteration. -/
theorem react_loop_succ (exec : ToolInvocation → Except String String)
    (sentinel : String) (client : List Message → ModelTurn)
    (msgs : List Message) (fuel : Nat) :
    react_loop exec sentinel client msgs (fuel + 1) =
      match (client msgs).tool_calls with
      | [] => RunResult.ok (client msgs).content 1
      | _ :: _ =>
        match dispatch_phase exec (client msgs) msgs with
        | Except.error e => RunResult.raised e 1
        | Except.ok msgs2 => (react_loop exec sentinel client msgs2 fuel).bump :=
  rfl

/-- Bumping adds one model call. -/
theorem RunResult.calls_bump (r : RunResult) : r.bump.calls = r.calls + 1 := by
  cases r <;> rfl

/-- The last element of a list, when it exists, is a member. -/
theorem getLast?_mem_list {α : Type} {l : List α} {a : α}
    (h : l.getLast? = some a) : a ∈ l := by
  have hmem : a ∈ l.getLast? := h
  obtain ⟨hne, heq⟩ := List.mem_getLast?_eq_getLast hmem
  rw [heq]
  exact List.getLast_mem hne

/-- A resolved tool is one of the registered tools. -/
theorem tool_map_mem {tools : List Tool} {name : String} {t : Tool}
    (h : tool_map tools name = some t) : t ∈ tools := by
  have := getLast?_mem_list h
  exact (List.mem_filter.mp this).1

/-- If no registered implementation ever raises, `execute_tool` never
raises, whatever the unknown-tool message. -/
theorem execute_tool_total (tools : List Tool) (unknownText : String → String)
    (htools : ∀ t ∈ tools, ∀ args, ∃ r, t.impl args = Except.ok r)
    (tc : ToolInvocation) : ∃ r, execute_tool tools unknownText tc = Except.ok r := by
  unfold execute_tool
  cases h : tool_map tools tc.name with
  | none => exact ⟨unknownText tc.name, rfl⟩
  | some t =>
    obtain ⟨r, hr⟩ := htools t (tool_map_mem h) tc.args
    exact ⟨r, hr⟩

/-- A dispatch over tool calls that never raise always succeeds. -/
theorem dispatch_tool_calls_total (exec : ToolInvocation → Except String String)
    (hexec : ∀ tc, ∃ r, exec tc = Except.ok r) :
    ∀ (tcs : List ToolInvocation) (msgs : List Message),
      ∃ msgs2, dispatch_tool_calls exec tcs msgs = Except.ok msgs2 := by
  intro tcs
  induction tcs with
  | nil => intro msgs; exact ⟨msgs, rfl⟩
  | cons tc rest ih =>
    intro msgs
    obtain ⟨r, hr⟩ := hexec tc
    obtain ⟨m2, hm⟩ := ih (msgs ++ [Message.tool r tc.id])
    exact ⟨m2, by rw [dispatch_tool_calls, hr]; exact hm⟩

/-- Against a client whose every turn requests tools (and a registry whose
tools never raise), the loop burns all its fuel and returns the sentinel,
making one model call per unit of fuel. -/
theorem loop_all_tools (exec : ToolInvocation → Except String String)
    (sentinel : String) (client : List Message → ModelTurn)
    (h1 : ∀ m, (client m).tool_calls ≠ [])
    (hexec : ∀ tc, ∃ r, exec tc = Except.ok r) :
    ∀ (fuel : Nat) (msgs : List Message),
      react_loop exec sentinel client msgs fuel = RunResult.ok sentinel fuel := by
  intro fuel
  induction fuel with
  | zero => intro msgs; rfl
  | succ n ih =>
    intro msgs
    rw [react_loop_succ]
    cases h : (client msgs).tool_calls with
    | nil => exact absurd h (h1 msgs)
    | cons a l =>
      obtain ⟨m2, hm⟩ := dispatch_tool_calls_total exec hexec
        (client msgs).tool_calls
        (msgs ++ [Message.ai (client msgs).content (client msgs).tool_calls])
      rw [h] at hm
      simp only [h, dispatch_phase, h, hm, ih m2, RunResult.bump]

/-- The loop never makes more model calls than it has fuel. -/
theorem loop_calls_le (exec : ToolInvocation → Except String String)
    (sentinel : String) (client : List Message → ModelTurn) :
    ∀ (fuel : Nat) (msgs : List Message),
      (react_loop exec sentinel client msgs fuel).calls ≤ fuel := by
  intro fuel
  induction fuel with
  | zero => intro msgs; exact Nat.le_refl 0
  | succ n ih =>
    intro msgs
    rw [react_loop_succ]
    cases h : (client msgs).tool_calls with
    | nil => exact Nat.succ_le_succ (Nat.zero_le n)
    | cons a l =>
      cases hd : dispatch_phase exec (client msgs) msgs with
      | error e => exact Nat.succ_le_succ (Nat.zero_le n)
      | ok m2 =>
        simp only [RunResult.calls_bump]
        exact Nat.succ_le_succ (ih m2)

/-- When the first model turn requests no tools, the loop returns its text
after exactly one model call. -/
theorem loop_first_empty (exec : ToolInvocation → Except String String)
    (sentinel : String) (client : List Message → ModelTurn)
    (msgs : List Message) (fuel : Nat)
    (he : (client msgs).tool_calls = []) :
    react_loop exec sentinel client msgs (fuel + 1) =
      RunResult.ok (client msgs).content 1 := by
  rw [react_loop_succ, he]

/-- The Python truthiness guards in `collect_step` are transparent:
one step always appends the chunk's text and tool calls. -/
theorem collect_step_eq (acc : ModelTurn) (c : Chunk) :
    collect_step acc c =
      { content := acc.content ++ c.content,
        tool_calls := acc.tool_calls ++ c.tool_calls } := by
  unfold collect_step
  congr 1
  · by_cases h : c.content == ""
    · rw [if_pos h, beq_iff_eq.mp h, String.append_empty]
    · rw [if_neg h]
  · by_cases h : c.tool_calls.isEmpty
    · rw [if_pos h, List.isEmpty_iff.mp h, List.append_nil]
    · rw [if_neg h]

/-- Folding `collect_step` over a chunk list appends, in order, the
concatenated texts and the concatenated invocation lists. -/
theorem collect_foldl (chunks : List Chunk) :
    ∀ acc : ModelTurn, chunks.foldl collect_step acc =
      { content := acc.content ++ concat_texts chunks,
        tool_calls := acc.tool_calls ++ concat_calls chunks } := by
  induction chunks with
  | nil =>
    intro acc
    simp [concat_texts, concat_calls, String.append_empty]
  | cons c rest ih =>
    intro acc
    rw [List.foldl_cons, ih (collect_step acc c), collect_step_eq]
    simp [concat_texts, concat_calls, String.append_assoc]

/-- Shape of a successful dispatch: it appends exactly one `ToolMessage`
per invocation, in invocation-list order, each holding that invocation's
execution result and id. -/
theorem dispatch_tool_calls_ok_shape (exec : ToolInvocation → Except String String) :
    ∀ (tcs : List ToolInvocation) (msgs msgs2 : List Message),
      dispatch_tool_calls exec tcs msgs = Except.ok msgs2 →
      ∃ results : List Message, msgs2 = msgs ++ results ∧
        results.length = tcs.length ∧
        ∀ i, i < tcs.length → ∃ tc txt, tcs[i]? = some tc ∧
          exec tc = Except.ok txt ∧
          results[i]? = some (Message.tool txt tc.id) := by
  intro tcs
  induction tcs with
  | nil =>
    intro msgs msgs2 h
    have hm : msgs = msgs2 := by
      simpa [dispatch_tool_calls] using h
    exact ⟨[], by simp [hm], rfl, fun i hi => absurd hi (by simp)⟩
  | cons tc rest ih =>
    intro msgs msgs2 h
    cases hexec : exec tc with
    | error e =>
      rw [dispatch_tool_calls, hexec] at h
      exact absurd h (by simp)
    | ok r =>
      rw [dispatch_tool_calls, hexec] at h
      obtain ⟨results, hmsgs, hlen, hidx⟩ := ih _ _ h
      refine ⟨Message.tool r tc.id :: results, ?_, by simp [hlen], ?_⟩
      · rw [hmsgs]; simp
      · intro i hi
        cases i with
        | zero => exact ⟨tc, r, by simp, hexec, by simp⟩
        | succ j =>
          obtain ⟨tc2, txt, h1, h2, h3⟩ := hidx j (by simpa using hi)
          exact ⟨tc2, txt, by simpa using h1, h2, by simpa using h3⟩

/-- The ranked category list is sorted by descending total. -/
theorem top_spending_list_sorted (df : List Txn) (customer_id : String)
    (top_n : Nat) :
    List.Pairwise (fun a b : String × Int => b.2 ≤ a.2)
      (top_spending_list df customer_id top_n) := by
  haveI : IsTotal (String × Int) (fun a b => b.2 ≤ a.2) :=
    ⟨fun a b => le_total b.2 a.2⟩
  haveI : IsTrans (String × Int) (fun a b => b.2 ≤ a.2) :=
    ⟨fun _ _ _ h1 h2 => le_trans h2 h1⟩
  have hs := List.sorted_insertionSort (fun a b : String × Int => b.2 ≤ a.2)
    (groupby_category_sum ((df.filter (fun r => r.cust_id == customer_id &&
      r.dr_cr_indctor == "DR"))))
  exact hs.sublist (List.take_sublist _ _)

/-- The ranked category list is truncated to at most `top_n` entries. -/
theorem top_spending_list_length_le (df : List Txn) (customer_id : String)
    (top_n : Nat) : (top_spending_list df customer_id top_n).length ≤ top_n := by
  unfold top_spending_list
  simp [List.length_take]

/-! Concrete fixtures used by counterexamples and witnesses. -/

/-- An invocation of a tool name that is in no registry. -/
def stub_invocation : ToolInvocation := { id := "1", name := "nope", args := [] }

/-- A model client stub that requests a tool on every turn. -/
def stub_tool_client : List Message → ModelTurn :=
  fun _ => { content := "", tool_calls := [stub_invocation] }

/-- A registered tool whose implementation always raises. -/
def boom_tool : Tool :=
  { name := "boom", impl := fun _ => Except.error "boom failed" }

/-- A model client stub that always requests the raising tool. -/
def boom_client : List Message → ModelTurn :=
  fun _ => { content := "", tool_calls := [{ id := "1", name := "boom", args := [] }] }

/-- An invocation of the unregistered name `foo`. -/
def foo_invocation : ToolInvocation := { id := "1", name := "foo", args := [] }

/-- Transaction fixture: `CUST0001` debit rows Groceries 100, Rent 500,
EMI 300, plus a credit row and another customer's debit row that the
filters must discard. -/
def sample_df : List Txn := [
  { cust_id := "CUST0001", dr_cr_indctor := "DR", tran_date := "2025-07-01",
    tran_type := "POS", tran_amt_in_ac := 100, category_of_txn := "Groceries" },
  { cust_id := "CUST0001", dr_cr_indctor := "DR", tran_date := "2025-07-02",
    tran_type := "ACH", tran_amt_in_ac := 500, category_of_txn := "Rent" },
  { cust_id := "CUST0001", dr_cr_indctor := "DR", tran_date := "2025-07-03",
    tran_type := "ACH", tran_amt_in_ac := 300, category_of_txn := "EMI" },
  { cust_id := "CUST0001", dr_cr_indctor := "CR", tran_date := "2025-07-04",
    tran_type := "ACH", tran_amt_in_ac := 9999, category_of_txn := "Salary" },
  { cust_id := "CUST0002", dr_cr_indctor := "DR", tran_date := "2025-07-05",
    tran_type := "ACH", tran_amt_in_ac := 777, category_of_txn := "Rent" } ]

/-! Claim theorems. -/

/-- Claim C1, counterexample: the claim says a failure raised by a
resolved tool implementation is caught and converted into a `ToolResult`
so the loop proceeds.  On the code it is false: `boom` resolves in the
registry, its implementation raises, and `BaseAgent.invoke` aborts after a
single model call with the exception propagating (`RunResult.raised`),
appending no error-text `ToolResult` and making no further model call. -/
theorem claim1_counterexample :
    tool_map [boom_tool] "boom" = some boom_tool ∧
    boom_tool.impl [] = Except.error "boom failed" ∧
    BaseAgent_invoke [boom_tool] boom_client "" "q" 10 =
      RunResult.raised "boom failed" 1 :=
  ⟨rfl, rfl, rfl⟩

/-- Claim C1, amended: when an invocation resolves in the registry and the
implementation raises, the failure is NOT caught: `execute_tool` (hence
`_execute_tool`, in every loop variant and for every unknown-tool
formatting) propagates it, and the loop aborts with that failure after the
current model call, instead of converting it into a `ToolResult`. -/
theorem claim1_amended (tools : List Tool) (u : String → String)
    (sentinel : String) (client : List Message → ModelTurn)
    (msgs : List Message) (fuel : Nat) (tc : ToolInvocation) (t : Tool)
    (e : String) (hres : tool_map tools tc.name = some t)
    (himpl : t.impl tc.args = Except.error e)
    (hturn : (client msgs).tool_calls = [tc]) :
    execute_tool tools u tc = Except.error e ∧
    react_loop (execute_tool tools u) sentinel client msgs (fuel + 1) =
      RunResult.raised e 1 := by
  have hexec : execute_tool tools u tc = Except.error e := by
    unfold execute_tool
    rw [hres]
    exact himpl
  refine ⟨hexec, ?_⟩
  rw [react_loop_succ, hturn]
  simp only [dispatch_phase, hturn, dispatch_tool_calls, hexec]

/-- Witness for the amended C1 at a concrete registry and client. -/
theorem claim1_amended_witness :
    execute_tool [boom_tool] unknown_text_base
      { id := "1", name := "boom", args := [] } = Except.error "boom failed" ∧
    react_loop (execute_tool [boom_tool] unknown_text_base) sentinel_full
      boom_client [] 10 = RunResult.raised "boom failed" 1 :=
  claim1_amended [boom_tool] unknown_text_base sentinel_full boom_client []
    9 { id := "1", name := "boom", args := [] } boom_tool "boom failed"
    rfl rfl rfl

/-- Claim C2: against a model client whose every turn requests tools (and
a dispatcher that never raises), the loop makes exactly its fuel's worth
of model calls and returns the sentinel (`Exhausted`); and in general no
run of the loop ever makes more model calls than `max_iterations`. -/
theorem claim2_loop_call_cap (exec : ToolInvocation → Except String String)
    (sentinel : String) (client : List Message → ModelTurn)
    (msgs : List Message) (fuel : Nat)
    (h1 : ∀ m, (client m).tool_calls ≠ [])
    (hexec : ∀ tc, ∃ r, exec tc = Except.ok r) :
    react_loop exec sentinel client msgs fuel = RunResult.ok sentinel fuel ∧
    ∀ (exec2 : ToolInvocation → Except String String) (sentinel2 : String)
      (client2 : List Message → ModelTurn) (msgs2 : List Message) (fuel2 : Nat),
      (react_loop exec2 sentinel2 client2 msgs2 fuel2).calls ≤ fuel2 :=
  ⟨loop_all_tools exec sentinel client h1 hexec fuel msgs,
    fun e2 s2 c2 m2 f2 => loop_calls_le e2 s2 c2 f2 m2⟩

/-- Witness for C2: with the always-tool-calling stub and the default cap
of 10, the loop returns the sentinel after exactly 10 model calls. -/
theorem claim2_witness :
    react_loop (execute_tool [] unknown_text_base) sentinel_full
      stub_tool_client [] default_max_iterations =
      RunResult.ok sentinel_full default_max_iterations ∧
    ∀ (exec2 : ToolInvocation → Except String String) (sentinel2 : String)
      (client2 : List Message → ModelTurn) (msgs2 : List Message) (fuel2 : Nat),
      (react_loop exec2 sentinel2 client2 msgs2 fuel2).calls ≤ fuel2 :=
  claim2_loop_call_cap (execute_tool [] unknown_text_base) sentinel_full
    stub_tool_client [] default_max_iterations
    (fun _ => List.cons_ne_nil _ _) (fun tc => ⟨unknown_text_base tc.name, rfl⟩)

/-- Claim C3, counterexample: the claim says every loop variant returns
the literal sentinel `"Max iterations reached without final answer"` on
exhaustion.  `run_agent_loop` (and the streaming demo) return
`"Max iterations reached"` instead, a different string. -/
theorem claim3_counterexample :
    run_agent_loop [] stub_tool_client [] default_max_iterations =
      RunResult.ok "Max iterations reached" 10 ∧
    ("Max iterations reached" : String) ≠
      "Max iterations reached without final answer" :=
  ⟨rfl, by decide⟩

/-- Claim C3, amended: on exhaustion, `BaseAgent.invoke` and react.py's
`run_agent` return exactly `"Max iterations reached without final
answer"`, while `run_agent_loop` and `demo_streaming_with_tools` return
exactly `"Max iterations reached"`. -/
theorem claim3_amended (tools : List Tool) (client : List Message → ModelTurn)
    (sc : List Message → List Chunk) (system_prompt question : String)
    (msgs : List Message) (mi : Nat)
    (h1 : ∀ m, (client m).tool_calls ≠ [])
    (hs : ∀ m, (collect_stream (sc m)).tool_calls ≠ [])
    (htools : ∀ t ∈ tools, ∀ args, ∃ r, t.impl args = Except.ok r) :
    BaseAgent_invoke tools client system_prompt question mi =
      RunResult.ok "Max iterations reached without final answer" mi ∧
    run_agent tools client question =
      RunResult.ok "Max iterations reached without final answer" 10 ∧
    run_agent_loop tools client msgs mi =
      RunResult.ok "Max iterations reached" mi ∧
    demo_streaming_with_tools tools sc question =
      RunResult.ok "Max iterations reached" 5 := by
  refine ⟨?_, ?_, ?_, ?_⟩
  · exact loop_all_tools _ _ _ h1
      (execute_tool_total tools unknown_text_base htools) mi _
  · exact loop_all_tools _ _ _ h1
      (execute_tool_total tools unknown_text_react htools) 10 _
  · exact loop_all_tools _ _ _ h1
      (execute_tool_total tools unknown_text_plain htools) mi _
  · exact loop_all_tools _ _ _ hs
      (execute_tool_total tools unknown_text_plain htools) 5 _

/-- Witness for the amended C3 at concrete stubs. -/
theorem claim3_witness :
    BaseAgent_invoke [] stub_tool_client "" "q" 10 =
      RunResult.ok "Max iterations reached without final answer" 10 ∧
    run_agent [] stub_tool_client "q" =
      RunResult.ok "Max iterations reached without final answer" 10 ∧
    run_agent_loop [] stub_tool_client [] 10 =
      RunResult.ok "Max iterations reached" 10 ∧
    demo_streaming_with_tools []
      (fun _ => [{ content := "", tool_calls := [stub_invocation] }]) "q" =
      RunResult.ok "Max iterations reached" 5 :=
  claim3_amended [] stub_tool_client
    (fun _ => [{ content := "", tool_calls := [stub_invocation] }]) "" "q" [] 10
    (fun _ => List.cons_ne_nil _ _) (fun _ => List.cons_ne_nil _ _)
    (fun t ht _ => absurd ht (List.not_mem_nil t))

/-- Claim C4, counterexample: the claim says every loop variant formats an
unknown tool as `Error: Unknown tool '<name>'` with the name in single
quotes.  react.py's `run_agent` omits the quotes and `run_agent_loop` /
the streaming demo use `Unknown tool: <name>`; neither text equals the
claimed single-quoted pattern for the name `foo`. -/
theorem claim4_counterexample :
    execute_tool [] unknown_text_react foo_invocation =
      Except.ok "Error: Unknown tool foo" ∧
    ("Error: Unknown tool foo" : String) ≠ "Error: Unknown tool \x27foo\x27" ∧
    execute_tool [] unknown_text_plain foo_invocation =
      Except.ok "Unknown tool: foo" ∧
    ("Unknown tool: foo" : String) ≠ "Error: Unknown tool \x27foo\x27" :=
  ⟨rfl, by decide, rfl, by decide⟩

/-- Claim C4, amended: an unregistered tool name never raises in any loop
variant — each produces an error-text `ToolResult` — but the text is
`Error: Unknown tool '<name>'` only in `BaseAgent._execute_tool`;
`run_agent` writes `Error: Unknown tool <name>` and `run_agent_loop` /
`demo_streaming_with_tools` write `Unknown tool: <name>`. -/
theorem claim4_amended (tools : List Tool) (tc : ToolInvocation)
    (h : tool_map tools tc.name = none) :
    BaseAgent_execute_tool tools tc =
      Except.ok ("Error: Unknown tool \x27" ++ tc.name ++ "\x27") ∧
    execute_tool tools unknown_text_react tc =
      Except.ok ("Error: Unknown tool " ++ tc.name) ∧
    execute_tool tools unknown_text_plain tc =
      Except.ok ("Unknown tool: " ++ tc.name) := by
  unfold BaseAgent_execute_tool execute_tool
  rw [h]
  exact ⟨rfl, rfl, rfl⟩

/-- Witness for the amended C4: a non-empty registry that still does not
contain the requested name `foo`. -/
theorem claim4_witness :
    BaseAgent_execute_tool [boom_tool] foo_invocation =
      Except.ok ("Error: Unknown tool \x27" ++ foo_invocation.name ++ "\x27") ∧
    execute_tool [boom_tool] unknown_text_react foo_invocation =
      Except.ok ("Error: Unknown tool " ++ foo_invocation.name) ∧
    execute_tool [boom_tool] unknown_text_plain foo_invocation =
      Except.ok ("Unknown tool: " ++ foo_invocation.name) :=
  claim4_amended [boom_tool] foo_invocation rfl

/-- Claim C5: when a model turn's invocation list is non-empty and its
dispatching phase completes, the loop appends first one `Assistant`
message carrying that invocation list and then exactly one `ToolResult`
message per invocation, in invocation-list order (the i-th appended
`ToolResult` carries the i-th invocation's id and execution result), so
the number of appended `ToolResult`s equals the number of invocations. -/
theorem claim5_dispatch_shape (exec : ToolInvocation → Except String String)
    (response : ModelTurn) (msgs msgs2 : List Message)
    (_hne : response.tool_calls ≠ [])
    (h : dispatch_phase exec response msgs = Except.ok msgs2) :
    ∃ results : List Message,
      msgs2 = msgs ++ Message.ai response.content response.tool_calls :: results ∧
      results.length = response.tool_calls.length ∧
      ∀ i, i < response.tool_calls.length → ∃ tc txt,
        response.tool_calls[i]? = some tc ∧ exec tc = Except.ok txt ∧
        results[i]? = some (Message.tool txt tc.id) := by
  obtain ⟨results, hm, hlen, hidx⟩ :=
    dispatch_tool_calls_ok_shape exec response.tool_calls _ msgs2 h
  refine ⟨results, ?_, hlen, hidx⟩
  rw [hm]
  simp

/-- Witness for C5 at a concrete one-invocation turn. -/
theorem claim5_witness :
    ∃ results : List Message,
      [Message.ai "t" [foo_invocation],
        Message.tool "Unknown tool: foo" "1"] =
        [] ++ Message.ai "t" [foo_invocation] :: results ∧
      results.length = [foo_invocation].length ∧
      ∀ i, i < ([foo_invocation] : List ToolInvocation).length → ∃ tc txt,
        ([foo_invocation] : List ToolInvocation)[i]? = some tc ∧
        execute_tool [] unknown_text_plain tc = Except.ok txt ∧
        results[i]? = some (Message.tool txt tc.id) :=
  claim5_dispatch_shape (execute_tool [] unknown_text_plain)
    { content := "t", tool_calls := [foo_invocation] } []
    [Message.ai "t" [foo_invocation], Message.tool "Unknown tool: foo" "1"]
    (List.cons_ne_nil _ _) rfl

/-- Claim C6: draining a finite fragment stream and aggregating it the way
the code does (`collect_stream`) yields exactly the `ModelTurn` the
blocking mode returns, for every pair of equivalent stubbed backends. -/
theorem claim6_stream_equiv (sc : List Message → List Chunk)
    (bc : List Message → ModelTurn) (h : equivalent_stub sc bc) :
    ∀ msgs, collect_stream (sc msgs) = bc msgs := by
  intro msgs
  obtain ⟨h1, h2⟩ := h msgs
  unfold collect_stream
  rw [collect_foldl]
  simp only [String.empty_append, List.nil_append, h1, h2]

/-- Witness for C6: a stream delivering `"42"` in two text fragments plus
one invocation fragment aggregates to the blocking turn. -/
theorem claim6_witness :
    collect_stream [{ content := "4", tool_calls := [] },
      { content := "2", tool_calls := [] },
      { content := "", tool_calls := [stub_invocation] }] =
      { content := "42", tool_calls := [stub_invocation] } :=
  claim6_stream_equiv
    (fun _ => [{ content := "4", tool_calls := [] },
      { content := "2", tool_calls := [] },
      { content := "", tool_calls := [stub_invocation] }])
    (fun _ => { content := "42", tool_calls := [stub_invocation] })
    (fun _ => ⟨rfl, rfl⟩) []

/-- Claim C7: when the first model turn's invocation list is empty the
loop returns that turn's text unmodified after exactly one model call; in
particular `BaseAgent.invoke`, against a stub whose first turn is text
`"42"` with no invocations, returns `"42"` after one model call for any
system prompt, question and positive iteration cap. -/
theorem claim7_immediate_answer (exec : ToolInvocation → Except String String)
    (sentinel : String) (client : List Message → ModelTurn)
    (msgs : List Message) (fuel : Nat) (hfuel : 1 ≤ fuel)
    (he : (client msgs).tool_calls = []) :
    react_loop exec sentinel client msgs fuel =
      RunResult.ok (client msgs).content 1 ∧
    ∀ (tools : List Tool) (system_prompt question : String) (mi : Nat),
      1 ≤ mi →
      BaseAgent_invoke tools (fun _ => { content := "42", tool_calls := [] })
        system_prompt question mi = RunResult.ok "42" 1 := by
  constructor
  · obtain ⟨n, rfl⟩ : ∃ n, fuel = n + 1 :=
      ⟨fuel - 1, (Nat.succ_pred_eq_of_pos hfuel).symm⟩
    exact loop_first_empty exec sentinel client msgs n he
  · intro tools system_prompt question mi hmi
    obtain ⟨n, rfl⟩ : ∃ n, mi = n + 1 :=
      ⟨mi - 1, (Nat.succ_pred_eq_of_pos hmi).symm⟩
    exact loop_first_empty _ _ _ _ n rfl

/-- Witness for C7 at the `"42"` stub with the default cap of 10. -/
theorem claim7_witness :
    react_loop (execute_tool [] unknown_text_base) sentinel_full
      (fun _ => { content := "42", tool_calls := [] }) [] 10 =
      RunResult.ok "42" 1 ∧
    ∀ (tools : List Tool) (system_prompt question : String) (mi : Nat),
      1 ≤ mi →
      BaseAgent_invoke tools (fun _ => { content := "42", tool_calls := [] })
        system_prompt question mi = RunResult.ok "42" 1 :=
  claim7_immediate_answer (execute_tool [] unknown_text_base) sentinel_full
    (fun _ => { content := "42", tool_calls := [] }) [] 10
    (by decide) rfl

/-- Claim C8: on the dataset whose `CUST0001` debit rows total
Groceries 100, Rent 500, EMI 300, `top_spending_categories` with
`top_n = 2` yields exactly Rent (500) then EMI (300) — both as the ranked
pair list and in the rendered string — with 500 > 300 (strictly
descending here); in general the ranked list is ordered by descending
total and truncated to at most `top_n` entries. -/
theorem claim8_top_categories :
    top_spending_list sample_df "CUST0001" 2 = [("Rent", 500), ("EMI", 300)] ∧
    top_spending_categories sample_df "CUST0001" 2 =
      "Top 2 spending categories for CUST0001:\n  1. Rent: $500.00\n  2. EMI: $300.00\n" ∧
    (300 : Int) < 500 ∧
    ∀ (df : List Txn) (c : String) (n : Nat),
      List.Pairwise (fun a b : String × Int => b.2 ≤ a.2)
        (top_spending_list df c n) ∧
      (top_spending_list df c n).length ≤ n :=
  ⟨by decide, by decide, by decide,
    fun df c n => ⟨top_spending_list_sorted df c n,
      top_spending_list_length_le df c n⟩⟩

/-- Claim C9: the date-range filter of `spending_in_date_range` is
inclusive on both bounds: a debit row of the customer whose `tran_date`
equals `start_date` or equals `end_date` is included, for any dataset and
any lexicographically ordered pair of bounds. -/
theorem claim9_inclusive_bounds (df : List Txn) (r : Txn)
    (customer_id start_date end_date : String)
    (hse : start_date.data ≤ end_date.data) (hr : r ∈ df)
    (hc : r.cust_id = customer_id) (hd : r.dr_cr_indctor = "DR")
    (hdate : r.tran_date = start_date ∨ r.tran_date = end_date) :
    r ∈ spending_in_date_range_rows df customer_id start_date end_date := by
  have hbounds : start_date.data ≤ r.tran_date.data ∧
      r.tran_date.data ≤ end_date.data := by
    rcases hdate with h | h
    · rw [h]
      exact ⟨le_refl _, hse⟩
    · rw [h]
      exact ⟨hse, le_refl _⟩
  unfold spending_in_date_range_rows
  apply List.mem_filter.mpr
  refine ⟨hr, ?_⟩
  simp only [Bool.and_eq_true, beq_iff_eq, decide_eq_true_eq]
  exact ⟨⟨⟨hc, hd⟩, hbounds.1⟩, hbounds.2⟩

/-- Witness for C9: on the fixture, the rows dated exactly on the start
bound and exactly on the end bound are both included. -/
theorem claim9_witness :
    { cust_id := "CUST0001", dr_cr_indctor := "DR", tran_date := "2025-07-01",
      tran_type := "POS", tran_amt_in_ac := 100,
      category_of_txn := "Groceries" : Txn } ∈
      spending_in_date_range_rows sample_df "CUST0001" "2025-07-01" "2025-07-03" ∧
    { cust_id := "CUST0001", dr_cr_indctor := "DR", tran_date := "2025-07-03",
      tran_type := "ACH", tran_amt_in_ac := 300,
      category_of_txn := "EMI" : Txn } ∈
      spending_in_date_range_rows sample_df "CUST0001" "2025-07-01" "2025-07-03" :=
  ⟨claim9_inclusive_bounds sample_df _ "CUST0001" "2025-07-01" "2025-07-03"
      (by decide) (by decide) rfl rfl (Or.inl rfl),
    claim9_inclusive_bounds sample_df _ "CUST0001" "2025-07-01" "2025-07-03"
      (by decide) (by decide) rfl rfl (Or.inr rfl)⟩

/-- Claim C10: for a customer with no matching debit row at all,
`get_total_spending` does not fail and returns the summary with a zero
amount: the sum over the empty selection is 0, formatted `$0.00`. -/
theorem claim10_unknown_customer_zero (df : List Txn) (customer_id : String)
    (h : ∀ r ∈ df, ¬(r.cust_id = customer_id ∧ r.dr_cr_indctor = "DR")) :
    get_total_spending df customer_id =
      "Customer " ++ customer_id ++ " total spending: $0.00" := by
  unfold get_total_spending
  have hfilter : df.filter
      (fun r => r.cust_id == customer_id && r.dr_cr_indctor == "DR") = [] := by
    apply List.filter_eq_nil_iff.mpr
    intro r hr
    simp only [Bool.and_eq_true, beq_iff_eq, not_and]
    intro h1 h2
    exact h r hr ⟨h1, h2⟩
  rw [hfilter]
  simp only [List.map_nil, List.sum_nil]
  rw [show format_money 0 = "0.00" from rfl, String.append_assoc]
  rw [show (" total spending: $" ++ "0.00" : String) = " total spending: $0.00"
    from by decide]

/-- Witness for C10: a customer id absent from the fixture. -/
theorem claim10_witness :
    get_total_spending sample_df "CUST9999" =
      "Customer " ++ "CUST9999" ++ " total spending: $0.00" :=
  claim10_unknown_customer_zero sample_df "CUST9999" (by decide)
